import Mathlib

set_option autoImplicit false
set_option maxRecDepth 40000

/-!
Verification of the ingest–dedup–dispatch pipeline and the episode-processing
pipeline of the sverige-radio-transcription repository, as a shallow embedding.

The Python sources embedded here:
- `src/rss_parser/main.py` — feed parsing, dedup diff, dispatch, GCS persistence;
- `src/rss_parser/episode_processor/core.py` — transcription pipeline stages and
  the two storage backends;
- `src/rss_parser/episode_processor/main.py` — the Flask HTTP layer.
-/

namespace SverigeRadio

/-- `PodcastEpisode` dataclass (`src/rss_parser/main.py` and
`src/rss_parser/episode_processor/core.py` declare the identical five-field
dataclass). -/
structure PodcastEpisode where
  title : String
  description : String
  guid : String
  pub_date : String
  mp3_url : String
deriving DecidableEq, Repr

/-- `Feed` dataclass from `src/rss_parser/main.py`. -/
structure Feed where
  title : String
  podcast_episodes : List PodcastEpisode
deriving DecidableEq, Repr

/-- One episode dict as it appears inside the `feeds.json` blob previously
persisted to GCS (`fetch_existing_feeds` returns plain parsed-JSON dicts;
`get_existing_episode_guids` reads only `episode["guid"]`). -/
structure ExistingEpisode where
  guid : String
deriving DecidableEq, Repr

/-- One feed dict from the persisted `feeds.json`.  `get_existing_episode_guids`
guards with `if "podcast_episodes" in feed`, so the key may be absent. -/
structure ExistingFeed where
  podcast_episodes : Option (List ExistingEpisode)
deriving DecidableEq, Repr

/-- `get_existing_episode_guids` from `src/rss_parser/main.py` (lines 111–118):
builds the Python `set` of all guids found in the persisted feed dicts. -/
def get_existing_episode_guids (existing_feeds : List ExistingFeed) : Finset String :=
  existing_feeds.foldl
    (fun guids feed =>
      match feed.podcast_episodes with
      | some episodes => episodes.foldl (fun g episode => insert episode.guid g) guids
      | none => guids)
    ∅

/-- `identify_new_episodes` from `src/rss_parser/main.py` (lines 121–133):
nested `for` loops over the freshly parsed feeds, appending every episode whose
guid is not in the existing-guid set. -/
def identify_new_episodes (feeds : List Feed) (existing_feeds : List ExistingFeed) :
    List PodcastEpisode :=
  let existing_guids := get_existing_episode_guids existing_feeds
  feeds.foldl
    (fun new_episodes feed =>
      feed.podcast_episodes.foldl
        (fun acc episode =>
          if episode.guid ∈ existing_guids then acc else acc ++ [episode])
        new_episodes)
    []


/-! ### Feed parsing (`parse_rss_feed`, `src/rss_parser/main.py` lines 35–59) -/

/-- One enclosure dict of a raw feedparser entry; `parse_rss_feed` reads only
`.get("url", "")` from it. -/
structure RawEnclosure where
  url : Option String
deriving DecidableEq, Repr

/-- A raw feedparser entry, with every field `parse_rss_feed` touches modelled
as optional (feedparser's `.get(key, default)` access), plus the `link` field
that raw entries carry but `parse_rss_feed` never reads. -/
structure RawEntry where
  title : Option String
  description : Option String
  guid : Option String
  published : Option String
  link : Option String
  enclosures : Option (List RawEnclosure)
deriving DecidableEq, Repr

/-- A raw parsed feed: `feed.feed.get("title", "")` plus the entry list. -/
structure RawFeed where
  title : Option String
  entries : List RawEntry
deriving DecidableEq, Repr

/-- `entry.get("enclosures", [{}])[0]`: the default `[{}]` yields the empty
dict when the key is absent.  (When the key is present but the list is empty
the Python expression raises `IndexError`; we return the empty dict there, a
path no claim exercises.) -/
def first_enclosure (entry : RawEntry) : RawEnclosure :=
  match entry.enclosures with
  | none => ⟨none⟩
  | some encs => encs.headD ⟨none⟩

/-- The entry-to-`PodcastEpisode` mapping inside the loop of `parse_rss_feed`:
each field is `entry.get(key, "")`; in particular `guid` defaults to `""` and
no fallback to `link` or `title` is applied. -/
def parse_entry (entry : RawEntry) : PodcastEpisode :=
  { title := entry.title.getD ""
    description := entry.description.getD ""
    guid := entry.guid.getD ""
    pub_date := entry.published.getD ""
    mp3_url := (first_enclosure entry).url.getD "" }

/-- `parse_rss_feed` from `src/rss_parser/main.py`. -/
def parse_rss_feed (feed : RawFeed) : Feed :=
  { title := feed.title.getD ""
    podcast_episodes := feed.entries.map parse_entry }

/-! ### One discovery run (`main`, `src/rss_parser/main.py` lines 178–203) -/

/-- The observable outcome of one discovery run: which episodes were handed to
`dispatch_to_cloud_tasks`, and which feeds were written back to `feeds.json`. -/
structure RunResult where
  dispatched : List PodcastEpisode
  persisted_feeds : List Feed
deriving DecidableEq, Repr

/-- `main` from `src/rss_parser/main.py`, with the network collaborators
abstracted to their data: `feeds` is what `fetch_and_process_feeds` parsed,
`existing_feeds` what `fetch_existing_feeds` loaded from `feeds.json`.
`main` dispatches a Cloud Task for every episode in
`identify_new_episodes feeds existing_feeds` (the per-episode `try/except`
only logs failures) and then calls `upload_to_gcs(feeds=feeds, …,
blob_name="feeds.json")`, overwriting the blob with the freshly fetched feeds. -/
def main_run (feeds : List Feed) (existing_feeds : List ExistingFeed) : RunResult :=
  { dispatched := identify_new_episodes feeds existing_feeds
    persisted_feeds := feeds }

/-- `asdict(feed)` as re-read by the next run's `fetch_existing_feeds`:
`dataclasses.asdict` always emits the `podcast_episodes` key. -/
def feed_as_dict (f : Feed) : ExistingFeed :=
  { podcast_episodes := some (f.podcast_episodes.map fun e => { guid := e.guid }) }

/-- The seen set the next run will load from what this run persisted. -/
def persisted_seen (r : RunResult) : Finset String :=
  get_existing_episode_guids (r.persisted_feeds.map feed_as_dict)

/-- The guids of the episodes this run dispatched. -/
def dispatched_guids (r : RunResult) : Finset String :=
  (r.dispatched.map PodcastEpisode.guid).toFinset

/-! ### MD5 (RFC 1321), used by `LocalStorage.upload_transcription` via
`hashlib.md5(episode.guid.encode()).hexdigest()` -/

namespace MD5

/-- The 64 round constants `K[i] = floor(|sin(i+1)| * 2^32)`. -/
def K : List Nat :=
  [0xd76aa478, 0xe8c7b756, 0x242070db, 0xc1bdceee, 0xf57c0faf, 0x4787c62a,
   0xa8304613, 0xfd469501, 0x698098d8, 0x8b44f7af, 0xffff5bb1, 0x895cd7be,
   0x6b901122, 0xfd987193, 0xa679438e, 0x49b40821, 0xf61e2562, 0xc040b340,
   0x265e5a51, 0xe9b6c7aa, 0xd62f105d, 0x02441453, 0xd8a1e681, 0xe7d3fbc8,
   0x21e1cde6, 0xc33707d6, 0xf4d50d87, 0x455a14ed, 0xa9e3e905, 0xfcefa3f8,
   0x676f02d9, 0x8d2a4c8a, 0xfffa3942, 0x8771f681, 0x6d9d6122, 0xfde5380c,
   0xa4beea44, 0x4bdecfa9, 0xf6bb4b60, 0xbebfbc70, 0x289b7ec6, 0xeaa127fa,
   0xd4ef3085, 0x04881d05, 0xd9d4d039, 0xe6db99e5, 0x1fa27cf8, 0xc4ac5665,
   0xf4292244, 0x432aff97, 0xab9423a7, 0xfc93a039, 0x655b59c3, 0x8f0ccc92,
   0xffeff47d, 0x85845dd1, 0x6fa87e4f, 0xfe2ce6e0, 0xa3014314, 0x4e0811a1,
   0xf7537e82, 0xbd3af235, 0x2ad7d2bb, 0xeb86d391]

/-- The 64 per-round left-rotation amounts. -/
def S : List Nat :=
  [7, 12, 17, 22, 7, 12, 17, 22, 7, 12, 17, 22, 7, 12, 17, 22,
   5, 9, 14, 20, 5, 9, 14, 20, 5, 9, 14, 20, 5, 9, 14, 20,
   4, 11, 16, 23, 4, 11, 16, 23, 4, 11, 16, 23, 4, 11, 16, 23,
   6, 10, 15, 21, 6, 10, 15, 21, 6, 10, 15, 21, 6, 10, 15, 21]

/-- 32-bit left rotation on a value `< 2^32`. -/
def rotl32 (x n : Nat) : Nat :=
  ((x <<< n) % 4294967296) ||| (x >>> (32 - n))

/-- The four 32-bit working registers. -/
structure Regs where
  a : Nat
  b : Nat
  c : Nat
  d : Nat
deriving DecidableEq, Repr

/-- One of the 64 MD5 rounds; `m g` reads the `g`-th little-endian word of the
current 64-byte chunk.  Bitwise NOT on 32 bits is XOR with `0xFFFFFFFF`. -/
def round (m : Nat → Nat) (st : Regs) (i : Nat) : Regs :=
  let fg : Nat × Nat :=
    if i < 16 then
      ((st.b &&& st.c) ||| ((st.b ^^^ 0xFFFFFFFF) &&& st.d), i)
    else if i < 32 then
      ((st.d &&& st.b) ||| ((st.d ^^^ 0xFFFFFFFF) &&& st.c), (5 * i + 1) % 16)
    else if i < 48 then
      (st.b ^^^ st.c ^^^ st.d, (3 * i + 5) % 16)
    else
      (st.c ^^^ (st.b ||| (st.d ^^^ 0xFFFFFFFF)), (7 * i) % 16)
  let f := (fg.1 + st.a + K.getD i 0 + m fg.2) % 4294967296
  { a := st.d
    b := (st.b + rotl32 f (S.getD i 0)) % 4294967296
    c := st.b
    d := st.c }

/-- The `g`-th little-endian 32-bit word of a 64-byte chunk. -/
def word (chunk : List Nat) (g : Nat) : Nat :=
  chunk.getD (4 * g) 0 + 256 * chunk.getD (4 * g + 1) 0
    + 65536 * chunk.getD (4 * g + 2) 0 + 16777216 * chunk.getD (4 * g + 3) 0

/-- Process one 64-byte chunk and add the result into the running registers. -/
def processChunk (st : Regs) (chunk : List Nat) : Regs :=
  let r := (List.range 64).foldl (round (word chunk)) st
  { a := (st.a + r.a) % 4294967296
    b := (st.b + r.b) % 4294967296
    c := (st.c + r.c) % 4294967296
    d := (st.d + r.d) % 4294967296 }

/-- MD5 padding: a `0x80` byte, zeros up to 56 mod 64, then the bit length as
eight little-endian bytes. -/
def padMessage (msg : List Nat) : List Nat :=
  let bitLen := (8 * msg.length) % 18446744073709551616
  msg ++ [0x80] ++ List.replicate ((119 - msg.length % 64) % 64) 0
    ++ ((List.range 8).map fun i => (bitLen >>> (8 * i)) % 256)

/-- Split a byte list into 64-byte chunks (structural recursion on a fuel
bound, so the definition reduces in the kernel; `l.length` steps always
suffice because every step consumes a nonempty prefix). -/
def chunksAux : Nat → List Nat → List (List Nat)
  | 0, _ => []
  | _, [] => []
  | fuel + 1, l => l.take 64 :: chunksAux fuel (l.drop 64)

/-- Split a byte list into 64-byte chunks. -/
def chunks (l : List Nat) : List (List Nat) :=
  chunksAux l.length l

/-- A 32-bit word as four little-endian bytes. -/
def wordBytes (w : Nat) : List Nat :=
  [w % 256, (w >>> 8) % 256, (w >>> 16) % 256, (w >>> 24) % 256]

/-- The 16 digest bytes of a byte message. -/
def md5Bytes (msg : List Nat) : List Nat :=
  let r := (chunks (padMessage msg)).foldl processChunk
    ⟨0x67452301, 0xefcdab89, 0x98badcfe, 0x10325476⟩
  wordBytes r.a ++ wordBytes r.b ++ wordBytes r.c ++ wordBytes r.d

/-- A byte as two lowercase hex digits. -/
def byteToHex (b : Nat) : String :=
  String.mk [Nat.digitChar (b / 16), Nat.digitChar (b % 16)]

/-- UTF-8 encoding of one code point (Python's `str.encode()`). -/
def utf8EncodeCharNat (c : Nat) : List Nat :=
  if c < 0x80 then [c]
  else if c < 0x800 then
    [0xC0 ||| (c >>> 6), 0x80 ||| (c &&& 0x3F)]
  else if c < 0x10000 then
    [0xE0 ||| (c >>> 12), 0x80 ||| ((c >>> 6) &&& 0x3F), 0x80 ||| (c &&& 0x3F)]
  else
    [0xF0 ||| (c >>> 18), 0x80 ||| ((c >>> 12) &&& 0x3F),
     0x80 ||| ((c >>> 6) &&& 0x3F), 0x80 ||| (c &&& 0x3F)]

/-- UTF-8 bytes of a string. -/
def encode (s : String) : List Nat :=
  s.data.flatMap fun c => utf8EncodeCharNat c.toNat

/-- `hashlib.md5(s.encode()).hexdigest()`. -/
def md5hex (s : String) : String :=
  String.join ((md5Bytes (encode s)).map byteToHex)

end MD5

/-! ### Transcription results (`src/rss_parser/episode_processor/core.py`) -/

/-- One segment dict `{"start": …, "end": …, "text": …}` as built by both
transcribers.  Python floats are modelled as rationals (the pipeline only
passes them through, never computes with them); the dict key `"end"` is the
Lean keyword `end`, written `«end»`. -/
structure Segment where
  start : ℚ
  «end» : ℚ
  text : String
deriving DecidableEq, Repr

/-- `TranscriptionResult` dataclass from `core.py`. -/
structure TranscriptionResult where
  language : String
  language_probability : ℚ
  duration : ℚ
  full_text : String
  segments : List Segment
deriving DecidableEq, Repr

/-- `FakeTranscriber.transcribe` (`core.py` lines 83–91): the deterministic
stand-in; `file_size` is `os.path.getsize(audio_path)`. -/
def FakeTranscriber.transcribe (audio_path : String) (file_size : Nat) :
    TranscriptionResult :=
  { language := "sv"
    language_probability := 99 / 100
    duration := 120
    full_text := "[FAKE TRANSCRIPTION] file=" ++ audio_path ++ " size="
      ++ toString file_size
    segments := [⟨0, 120, "[fake]"⟩] }

/-! ### Storage backends (`src/rss_parser/episode_processor/core.py`) -/

/-- A JSON-like value, rich enough for the payload both storage backends
serialise; objects are ordered key–value lists, as Python dict literals are. -/
inductive JVal where
  | s (v : String)
  | q (v : ℚ)
  | segs (v : List Segment)
  | obj (entries : List (String × JVal))

/-- The keys of a JSON object (empty for non-objects). -/
def JVal.keys : JVal → List String
  | .obj entries => entries.map Prod.fst
  | _ => []

/-- Look a key up in a JSON object. -/
def JVal.get : JVal → String → Option JVal
  | .obj entries, k => (entries.find? fun p => p.1 == k).map Prod.snd
  | _, _ => none

/-- The blob path computed by `GCSStorage.upload_transcription` (`core.py`
lines 118–119): `safe_name = episode.guid`, then
`f"transcriptions/{safe_name}.json"`. -/
def GCSStorage.blob_path (episode : PodcastEpisode) : String :=
  "transcriptions/" ++ episode.guid ++ ".json"

/-- The `data` dict literal built by `GCSStorage.upload_transcription`
(`core.py` lines 121–135) and serialised with `json.dumps`. -/
def GCSStorage.upload_data (episode : PodcastEpisode) (result : TranscriptionResult) :
    JVal :=
  .obj
    [("episode", .obj
        [("title", .s episode.title),
         ("guid", .s episode.guid),
         ("pub_date", .s episode.pub_date),
         ("mp3_url", .s episode.mp3_url)]),
     ("transcription", .obj
        [("language", .s result.language),
         ("language_probability", .q result.language_probability),
         ("duration", .q result.duration),
         ("full_text", .s result.full_text),
         ("segments", .segs result.segments)])]

/-- The file path computed by `LocalStorage.upload_transcription` (`core.py`
lines 156–157): `safe_name = hashlib.md5(episode.guid.encode()).hexdigest()`,
then `os.path.join(output_dir, f"{safe_name}.json")` (POSIX join). -/
def LocalStorage.path (output_dir : String) (episode : PodcastEpisode) : String :=
  output_dir ++ "/" ++ MD5.md5hex episode.guid ++ ".json"

/-- The `data` dict literal built by `LocalStorage.upload_transcription`
(`core.py` lines 159–173); the source duplicates the dict of the GCS backend
verbatim. -/
def LocalStorage.upload_data (episode : PodcastEpisode) (result : TranscriptionResult) :
    JVal :=
  .obj
    [("episode", .obj
        [("title", .s episode.title),
         ("guid", .s episode.guid),
         ("pub_date", .s episode.pub_date),
         ("mp3_url", .s episode.mp3_url)]),
     ("transcription", .obj
        [("language", .s result.language),
         ("language_probability", .q result.language_probability),
         ("duration", .q result.duration),
         ("full_text", .s result.full_text),
         ("segments", .segs result.segments)])]

/-! ### `EpisodeProcessor.process` (`core.py` lines 205–232) -/

/-- The scoped audio file name: `os.path.join(tmpdir, "episode.mp3")`. -/
def mp3_filename : String := "episode.mp3"

/-- The three stage capabilities handed to `EpisodeProcessor.__init__`
(field order as in the source), abstracted to their observable data flow:
`downloader url` is the audio content written to the scoped path (or the
raised exception), `transcriber` consumes that content, and `storage`
receives only the episode record and the in-memory transcription result —
its type shows it is never handed the audio file.  `ε` is the exception
type. -/
structure EpisodeProcessor (ε : Type) where
  transcriber : Nat → Except ε TranscriptionResult
  storage : PodcastEpisode → TranscriptionResult → Except ε String
  downloader : String → Except ε Nat

/-- Observable events of one `process` call, in execution order.  `mkTmpdir`
and `rmTmpdir` are the enter/exit of `with tempfile.TemporaryDirectory()`;
the context manager removes the directory on every exit path. -/
inductive Event where
  | mkTmpdir
  | download (url : String)
  | transcribe (path : String)
  | rmTmpdir
  | store (guid : String)
deriving DecidableEq, Repr

/-- `EpisodeProcessor.process`: inside the `with` block the audio is
downloaded to the scoped path and transcribed; the block ends (deleting the
temporary directory) before `storage.upload_transcription(episode, result)`
runs; an exception in a stage propagates, skipping the later stages but still
leaving the `with` block (hence `rmTmpdir` appears on every path). -/
def EpisodeProcessor.process {ε : Type} (p : EpisodeProcessor ε)
    (episode : PodcastEpisode) : Except ε String × List Event :=
  match p.downloader episode.mp3_url with
  | .error e => (.error e, [.mkTmpdir, .download episode.mp3_url, .rmTmpdir])
  | .ok audio =>
    match p.transcriber audio with
    | .error e =>
      (.error e,
       [.mkTmpdir, .download episode.mp3_url, .transcribe mp3_filename, .rmTmpdir])
    | .ok result =>
      match p.storage episode result with
      | .error e =>
        (.error e,
         [.mkTmpdir, .download episode.mp3_url, .transcribe mp3_filename, .rmTmpdir,
          .store episode.guid])
      | .ok path =>
        (.ok path,
         [.mkTmpdir, .download episode.mp3_url, .transcribe mp3_filename, .rmTmpdir,
          .store episode.guid])

/-- How many times the transcriber was invoked in a trace. -/
def countTranscribe (evs : List Event) : Nat :=
  (evs.filter fun e => match e with | .transcribe _ => true | _ => false).length

/-- How many times the storage was invoked in a trace. -/
def countStore (evs : List Event) : Nat :=
  (evs.filter fun e => match e with | .store _ => true | _ => false).length

/-- One step of the temporary-directory-on-disk state. -/
def tmpStep (b : Bool) (e : Event) : Bool :=
  match e with
  | .mkTmpdir => true
  | .rmTmpdir => false
  | _ => b

/-- Whether the temporary directory exists on disk after a trace. -/
def tmpdirLive (evs : List Event) : Bool :=
  evs.foldl tmpStep false

/-- `true` iff at every `store` event of the trace the temporary directory is
already gone. -/
def cleanBeforeStore : Bool → List Event → Bool
  | _, [] => true
  | tmp, e :: rest =>
    match e with
    | .mkTmpdir => cleanBeforeStore true rest
    | .rmTmpdir => cleanBeforeStore false rest
    | .store _ => !tmp && cleanBeforeStore tmp rest
    | _ => cleanBeforeStore tmp rest

/-! ### HTTP layer (`src/rss_parser/episode_processor/main.py`) -/

/-- An HTTP response: status code and body text. -/
structure HttpResponse where
  status : Nat
  body : String
deriving DecidableEq, Repr

/-- The `POST /` route `process_episode` of
`src/rss_parser/episode_processor/main.py` (lines 46–72):
`request.get_json(silent=True)` yields `none` when the body is absent or not
decodable JSON, answered with status 400; otherwise the processor runs inside
`try/except`, answering 200 with the location on success and 500 with the
error's message on failure.  The processor call is the capability `proc`.
Modelled from the spec: the concrete call `processor.process(episode,
trace_id=…)` (and the `log` import) target a revision of `core.py` that is
not in the tree; per the spec, `process(episode)` returns the storage
location or fails with a stage error. -/
def process_episode_route (proc : PodcastEpisode → Except String String)
    (episode_data : Option PodcastEpisode) : HttpResponse :=
  match episode_data with
  | none => ⟨400, "No episode data provided"⟩
  | some episode =>
    match proc episode with
    | .ok path => ⟨200, "Processed: " ++ episode.title ++ " → " ++ path⟩
    | .error e => ⟨500, "Error: " ++ e⟩

/-- The `GET /` liveness route `health` (lines 75–77): unconditionally 200. -/
def health_route : HttpResponse := ⟨200, "OK"⟩

/-! ### Concrete inputs used in examples, witnesses and counterexamples -/

/-- Feed entry with guid `"a"` (the spec's dedup example). -/
def epA : PodcastEpisode :=
  ⟨"Episode A", "about a", "a", "2026-01-01", "https://x/a.mp3"⟩

/-- Feed entry with guid `"c"` (the spec's dedup example). -/
def epC : PodcastEpisode :=
  ⟨"Episode C", "about c", "c", "2026-01-02", "https://x/c.mp3"⟩

/-- Feed entry with guid `"d"` (the spec's dedup example). -/
def epD : PodcastEpisode :=
  ⟨"Episode D", "about d", "d", "2026-01-03", "https://x/d.mp3"⟩

/-- Persisted feed dicts whose guid set is `{"a", "b"}`. -/
def seenAB : List ExistingFeed := [⟨some [⟨"a"⟩, ⟨"b"⟩]⟩]

/-- Feed entry with guid `"x"`, new relative to `seenOld`. -/
def epX : PodcastEpisode :=
  ⟨"Episode X", "about x", "x", "2026-02-01", "https://x/x.mp3"⟩

/-- Persisted feed dicts whose guid set is `{"old"}` — a previously seen episode
that no longer appears in the current feed. -/
def seenOld : List ExistingFeed := [⟨some [⟨"old"⟩]⟩]

/-- Raw entry with a missing guid but a distinctive link and title. -/
def rawBlank1 : RawEntry :=
  { title := some "First blank-guid entry", description := some "one"
    guid := none, published := some "2026-03-01"
    link := some "https://sr.se/ep1"
    enclosures := some [⟨some "https://sr.se/ep1.mp3"⟩] }

/-- Raw entry with an empty guid and a different link and title. -/
def rawBlank2 : RawEntry :=
  { title := some "Second blank-guid entry", description := some "two"
    guid := some "", published := some "2026-03-02"
    link := some "https://sr.se/ep2"
    enclosures := some [⟨some "https://sr.se/ep2.mp3"⟩] }

/-- Raw entry that carries no enclosure at all (no audio URL). -/
def rawNoUrl : RawEntry :=
  { title := some "No audio", description := none, guid := some "nu"
    published := some "2026-02-02", link := some "https://sr.se/nu"
    enclosures := none }

/-- Episode with guid `"same"`; differs from `epSame2` in every other field. -/
def epSame1 : PodcastEpisode :=
  ⟨"Title one", "first description", "same", "2026-04-01", "https://x/1.mp3"⟩

/-- Episode with guid `"same"`; differs from `epSame1` in every other field. -/
def epSame2 : PodcastEpisode :=
  ⟨"Title two", "second description", "same", "2026-04-02", "https://x/2.mp3"⟩

/-- The transcription the fake transcriber yields for the 1 KiB stub download
(mirrors `StubDownloader` + `FakeTranscriber` of `tests/test_core.py`). -/
def fakeResult : TranscriptionResult :=
  FakeTranscriber.transcribe mp3_filename 1024

/-- A processor wired like the repository's own tests: stub downloader writing
1024 bytes, fake transcriber, local storage rooted at `output_dir`. -/
def localStubProcessor (output_dir : String) : EpisodeProcessor String :=
  { transcriber := fun n => .ok (FakeTranscriber.transcribe mp3_filename n)
    storage := fun episode _ => .ok (LocalStorage.path output_dir episode)
    downloader := fun _ => .ok 1024 }

/-- A processor whose download stage fails. -/
def failingDownloadProcessor : EpisodeProcessor String :=
  { transcriber := fun n => .ok (FakeTranscriber.transcribe mp3_filename n)
    storage := fun episode _ => .ok (LocalStorage.path "output" episode)
    downloader := fun _ => .error "HTTP 404" }

/-- A processor whose transcription stage fails. -/
def failingTranscribeProcessor : EpisodeProcessor String :=
  { transcriber := fun _ => .error "corrupt audio"
    storage := fun episode _ => .ok (LocalStorage.path "output" episode)
    downloader := fun _ => .ok 1024 }

/-- A pipeline capability that always succeeds, storing at the GCS location. -/
def okProc : PodcastEpisode → Except String String :=
  fun episode => .ok (GCSStorage.blob_path episode)

/-- A pipeline capability that always fails. -/
def errProc : PodcastEpisode → Except String String :=
  fun _ => .error "boom"

section DiffLemmas

/-- Membership in the guid set built by the inner `foldl` of
`get_existing_episode_guids`. -/
theorem mem_foldl_insert_guid (episodes : List ExistingEpisode) (acc : Finset String)
    (x : String) :
    x ∈ episodes.foldl (fun g episode => insert episode.guid g) acc
      ↔ x ∈ acc ∨ ∃ e ∈ episodes, e.guid = x := by
  induction episodes generalizing acc with
  | nil => simp
  | cons e rest ih =>
    simp only [List.foldl_cons, ih, Finset.mem_insert, List.mem_cons]
    constructor
    · rintro (⟨h | h⟩ | ⟨e', he', hx⟩)
      · exact Or.inr ⟨e, Or.inl rfl, h.symm⟩
      · exact Or.inl h
      · exact Or.inr ⟨e', Or.inr he', hx⟩
    · rintro (h | ⟨e', he' | he', hx⟩)
      · exact Or.inl (Or.inr h)
      · exact Or.inl (Or.inl (he' ▸ hx.symm))
      · exact Or.inr ⟨e', he', hx⟩

/-- Membership characterisation of `get_existing_episode_guids`: exactly the
guids appearing in some persisted feed dict that has the `podcast_episodes` key. -/
theorem mem_get_existing_episode_guids (existing_feeds : List ExistingFeed) (x : String) :
    x ∈ get_existing_episode_guids existing_feeds
      ↔ ∃ feed ∈ existing_feeds, ∃ episodes, feed.podcast_episodes = some episodes
          ∧ ∃ e ∈ episodes, e.guid = x := by
  unfold get_existing_episode_guids
  suffices h : ∀ acc : Finset String,
      x ∈ existing_feeds.foldl
        (fun guids feed =>
          match feed.podcast_episodes with
          | some episodes => episodes.foldl (fun g episode => insert episode.guid g) guids
          | none => guids) acc
      ↔ x ∈ acc ∨ ∃ feed ∈ existing_feeds, ∃ episodes,
          feed.podcast_episodes = some episodes ∧ ∃ e ∈ episodes, e.guid = x by
    simpa using h ∅
  induction existing_feeds with
  | nil => simp
  | cons f rest ih =>
    intro acc
    cases hf : f.podcast_episodes with
    | none =>
      simp only [List.foldl_cons, hf, ih, List.mem_cons]
      constructor
      · rintro (h | ⟨fd, hfd, eps, heps, he⟩)
        · exact Or.inl h
        · exact Or.inr ⟨fd, Or.inr hfd, eps, heps, he⟩
      · rintro (h | ⟨fd, hfd | hfd, eps, heps, he⟩)
        · exact Or.inl h
        · rw [hfd] at heps; rw [heps] at hf; cases hf
        · exact Or.inr ⟨fd, hfd, eps, heps, he⟩
    | some episodes =>
      simp only [List.foldl_cons, hf, ih, mem_foldl_insert_guid, List.mem_cons]
      constructor
      · rintro (⟨h | ⟨e, he, hx⟩⟩ | ⟨fd, hfd, eps, heps, he⟩)
        · exact Or.inl h
        · exact Or.inr ⟨f, Or.inl rfl, episodes, hf, e, he, hx⟩
        · exact Or.inr ⟨fd, Or.inr hfd, eps, heps, he⟩
      · rintro (h | ⟨fd, hfd | hfd, eps, heps, he⟩)
        · exact Or.inl (Or.inl h)
        · subst hfd
          rw [hf] at heps
          cases heps
          exact Or.inl (Or.inr he)
        · exact Or.inr ⟨fd, hfd, eps, heps, he⟩

/-- The inner accumulator loop of `identify_new_episodes` is filtering. -/
theorem foldl_select_eq_filter (guids : Finset String) (episodes : List PodcastEpisode)
    (acc : List PodcastEpisode) :
    episodes.foldl
        (fun a episode => if episode.guid ∈ guids then a else a ++ [episode]) acc
      = acc ++ episodes.filter (fun e => decide (e.guid ∉ guids)) := by
  induction episodes generalizing acc with
  | nil => simp
  | cons e rest ih =>
    by_cases h : e.guid ∈ guids
    · simp [List.filter, h, ih]
    · simp [List.filter, h, ih]

/-- The nested loops of `identify_new_episodes` amount to an order-preserving
filter of the concatenation of all feeds' episode lists. -/
theorem identify_new_episodes_eq_filter (feeds : List Feed)
    (existing_feeds : List ExistingFeed) :
    identify_new_episodes feeds existing_feeds
      = (feeds.flatMap Feed.podcast_episodes).filter
          (fun e => decide (e.guid ∉ get_existing_episode_guids existing_feeds)) := by
  unfold identify_new_episodes
  suffices h : ∀ acc : List PodcastEpisode,
      feeds.foldl
        (fun new_episodes feed =>
          feed.podcast_episodes.foldl
            (fun a episode =>
              if episode.guid ∈ get_existing_episode_guids existing_feeds then a
              else a ++ [episode]) new_episodes) acc
      = acc ++ (feeds.flatMap Feed.podcast_episodes).filter
          (fun e => decide (e.guid ∉ get_existing_episode_guids existing_feeds)) by
    simpa using h []
  induction feeds with
  | nil => simp
  | cons f rest ih =>
    intro acc
    rw [List.foldl_cons, ih, foldl_select_eq_filter, List.flatMap_cons,
      List.filter_append, List.append_assoc]

end DiffLemmas

/-- What a run persists is exactly the guid set of the current feeds' entries —
previously seen guids that dropped out of the feed are forgotten. -/
theorem persisted_seen_main_run (feeds : List Feed) (existing_feeds : List ExistingFeed) :
    persisted_seen (main_run feeds existing_feeds)
      = ((feeds.flatMap Feed.podcast_episodes).map PodcastEpisode.guid).toFinset := by
  ext x
  simp only [persisted_seen, main_run]
  rw [mem_get_existing_episode_guids]
  constructor
  · rintro ⟨fd, hfd, eps, heps, e, he, hx⟩
    obtain ⟨f, hf, rfl⟩ := List.mem_map.mp hfd
    rw [show (feed_as_dict f).podcast_episodes
          = some (f.podcast_episodes.map fun e => ⟨e.guid⟩) from rfl] at heps
    cases heps
    obtain ⟨e0, he0, rfl⟩ := List.mem_map.mp he
    rw [List.mem_toFinset, List.mem_map]
    exact ⟨e0, List.mem_flatMap.mpr ⟨f, hf, he0⟩, hx⟩
  · intro hx
    rw [List.mem_toFinset, List.mem_map] at hx
    obtain ⟨e0, he0, rfl⟩ := hx
    obtain ⟨f, hf, hef⟩ := List.mem_flatMap.mp he0
    refine ⟨feed_as_dict f, List.mem_map_of_mem _ hf, _, rfl, ?_⟩
    exact ⟨⟨e0.guid⟩, List.mem_map_of_mem (fun e => ({ guid := e.guid } : ExistingEpisode)) hef, rfl⟩

/-- Every episode `identify_new_episodes` selects comes from the current feeds
and has an unseen guid. -/
theorem mem_identify_new_episodes (feeds : List Feed) (existing_feeds : List ExistingFeed)
    (e : PodcastEpisode) (h : e ∈ identify_new_episodes feeds existing_feeds) :
    e ∈ feeds.flatMap Feed.podcast_episodes
      ∧ e.guid ∉ get_existing_episode_guids existing_feeds := by
  rw [identify_new_episodes_eq_filter] at h
  have h2 := List.of_mem_filter h
  exact ⟨List.mem_of_mem_filter h, by simpa using h2⟩

/-- RFC 1321 test vector for the embedded MD5. -/
example : MD5.md5hex "abc" = "900150983cd24fb0d6963f7d28e17f72" := by decide

/-- MD5 of the empty message. -/
example : MD5.md5hex "" = "d41d8cd98f00b204e9800998ecf8427e" := by decide

/-- MD5 of a non-ASCII string (UTF-8 encoding path). -/
example : MD5.md5hex "å" = "e726cc85f77337c9816323749b573281" := by decide

/-- MD5 of a two-chunk message (exercises the chunk split). -/
example : MD5.md5hex
    "The quick brown fox jumps over the lazy dog. And then some more text to exceed sixty-four bytes."
    = "c12d3b867862d7fb127fddf14717bfea" := by decide

/-- If every `store` event of `l ++ store g :: r` happens with the temporary
directory absent, then folding the directory state over `l` ends absent. -/
theorem cleanBeforeStore_decomp (g : String) (r : List Event) :
    ∀ (l : List Event) (tmp : Bool),
      cleanBeforeStore tmp (l ++ Event.store g :: r) = true →
      l.foldl tmpStep tmp = false := by
  intro l
  induction l with
  | nil =>
    intro tmp h
    have h' : (!tmp && cleanBeforeStore tmp r) = true := h
    have h1 := (Bool.and_eq_true _ _).mp h'
    simpa using h1.1
  | cons e rest ih =>
    intro tmp h
    cases e with
    | mkTmpdir => exact ih true h
    | rmTmpdir => exact ih false h
    | download u => exact ih tmp h
    | transcribe p => exact ih tmp h
    | store g2 =>
      have h' : (!tmp && cleanBeforeStore tmp (rest ++ Event.store g :: r)) = true := h
      exact ih tmp ((Bool.and_eq_true _ _).mp h').2

/-! ### Claim C1 -/

/-- C1: for every sequence of parsed feeds and every persisted seen state,
`identify_new_episodes` returns exactly those entries whose guid is not in the
seen-guid set, preserving the relative input order (an order-preserving
filter); in particular with seen guids `{"a","b"}` and entry guids
`["a","c","d"]` it returns the entries with guids `["c","d"]` in that order. -/
theorem C1_diff_filters_preserving_order :
    (∀ (feeds : List Feed) (existing_feeds : List ExistingFeed),
      identify_new_episodes feeds existing_feeds
        = (feeds.flatMap Feed.podcast_episodes).filter
            (fun e => decide (e.guid ∉ get_existing_episode_guids existing_feeds)))
    ∧ identify_new_episodes [⟨"Feed", [epA, epC, epD]⟩] seenAB = [epC, epD] :=
  ⟨identify_new_episodes_eq_filter, by decide⟩

/-! ### Claim C3 -/

/-- C3 counterexample: with loaded seen set `{"old"}` and a current feed whose
only entry has guid `"x"`, the run persists `feeds.json` containing only the
current feed, so the persisted seen set is `{"x"}`: it is neither
`seen ∪ {dispatched guids} = {"old","x"}` nor a superset of the loaded set. -/
theorem C3_counterexample :
    ¬ get_existing_episode_guids seenOld
        ⊆ persisted_seen (main_run [⟨"F", [epX]⟩] seenOld)
    ∧ persisted_seen (main_run [⟨"F", [epX]⟩] seenOld)
        ≠ get_existing_episode_guids seenOld
            ∪ dispatched_guids (main_run [⟨"F", [epX]⟩] seenOld) := by
  decide

/-- C3 (amended): the run persists the freshly fetched feeds themselves, so the
seen set the next run loads equals the guid set of the current feeds' entries;
it contains the guid of every entry dispatched in the run, but loaded guids
that dropped out of the current feed are forgotten, so it is not in general a
superset of the loaded seen set. -/
theorem C3_amended_persisted_is_current_feed_guids
    (feeds : List Feed) (existing_feeds : List ExistingFeed) :
    persisted_seen (main_run feeds existing_feeds)
      = ((feeds.flatMap Feed.podcast_episodes).map PodcastEpisode.guid).toFinset
    ∧ ∀ e ∈ (main_run feeds existing_feeds).dispatched,
        e.guid ∈ persisted_seen (main_run feeds existing_feeds) := by
  refine ⟨persisted_seen_main_run feeds existing_feeds, ?_⟩
  intro e he
  have h := mem_identify_new_episodes feeds existing_feeds e he
  rw [persisted_seen_main_run, List.mem_toFinset, List.mem_map]
  exact ⟨e, h.1, rfl⟩

/-- Witness for the amended C3 at the concrete run of the counterexample. -/
theorem C3_amended_witness :
    persisted_seen (main_run [⟨"F", [epX]⟩] seenOld)
      = ((([⟨"F", [epX]⟩] : List Feed).flatMap Feed.podcast_episodes).map
          PodcastEpisode.guid).toFinset
    ∧ epX.guid ∈ persisted_seen (main_run [⟨"F", [epX]⟩] seenOld) :=
  ⟨(C3_amended_persisted_is_current_feed_guids [⟨"F", [epX]⟩] seenOld).1,
    (C3_amended_persisted_is_current_feed_guids [⟨"F", [epX]⟩] seenOld).2 epX (by decide)⟩

/-! ### Claim C5 -/

/-- C5 counterexample: two raw entries with blank guids but different links and
titles both parse to guid `""` — the parser applies no link/title fallback —
and with `""` already in the seen set the diff collapses both to the one
already-seen identity, returning no new entries. -/
theorem C5_counterexample :
    rawBlank1.link ≠ rawBlank2.link
    ∧ rawBlank1.title ≠ rawBlank2.title
    ∧ (parse_entry rawBlank1).guid = (parse_entry rawBlank2).guid
    ∧ identify_new_episodes
        [⟨"F", [parse_entry rawBlank1, parse_entry rawBlank2]⟩]
        [⟨some [⟨""⟩]⟩] = [] := by
  decide

/-- C5 (amended): an entry whose guid is missing or empty is given the literal
guid `""` by `parse_rss_feed`; no fallback to link or title exists, so all
blank-guid entries share the single identity `""`, and once `""` is in the
seen set every blank-guid entry is excluded from the new-episode diff. -/
theorem C5_amended_blank_guids_collapse (e1 e2 : RawEntry)
    (h1 : e1.guid = none ∨ e1.guid = some "")
    (h2 : e2.guid = none ∨ e2.guid = some "") :
    (parse_entry e1).guid = ""
    ∧ (parse_entry e1).guid = (parse_entry e2).guid
    ∧ ∀ (feeds : List Feed) (existing_feeds : List ExistingFeed),
        "" ∈ get_existing_episode_guids existing_feeds →
        parse_entry e1 ∉ identify_new_episodes feeds existing_feeds := by
  have g1 : (parse_entry e1).guid = "" := by
    rcases h1 with h | h <;> simp [parse_entry, h]
  have g2 : (parse_entry e2).guid = "" := by
    rcases h2 with h | h <;> simp [parse_entry, h]
  refine ⟨g1, g1.trans g2.symm, ?_⟩
  intro feeds existing_feeds hseen hmem
  have h := (mem_identify_new_episodes feeds existing_feeds _ hmem).2
  rw [g1] at h
  exact h hseen

/-- Witness for the amended C5 at the two concrete blank-guid entries. -/
theorem C5_amended_witness :
    (parse_entry rawBlank1).guid = ""
    ∧ (parse_entry rawBlank1).guid = (parse_entry rawBlank2).guid
    ∧ parse_entry rawBlank1 ∉ identify_new_episodes
        [⟨"F", [parse_entry rawBlank1]⟩] [⟨some [⟨""⟩]⟩] := by
  obtain ⟨a, b, c⟩ :=
    C5_amended_blank_guids_collapse rawBlank1 rawBlank2 (Or.inl rfl) (Or.inr rfl)
  exact ⟨a, b, c [⟨"F", [parse_entry rawBlank1]⟩] [⟨some [⟨""⟩]⟩] (by decide)⟩

/-! ### Claim C9 -/

/-- C9 counterexample: a parsed entry with no enclosure gets `mp3_url = ""`,
and a discovery run over a cold-start state still dispatches it for
processing — `main` applies no audio-URL filter before
`dispatch_to_cloud_tasks`, contrary to the claim that such an entry is not
dispatched. -/
theorem C9_counterexample :
    (parse_entry rawNoUrl).mp3_url = ""
    ∧ parse_entry rawNoUrl
        ∈ (main_run [parse_rss_feed ⟨some "F", [rawNoUrl]⟩] []).dispatched := by
  decide

/-- C9 (amended): a parsed entry with no audio URL is indeed not an error for
the discovery run and its guid is recorded as seen, but it IS dispatched for
processing like every other new entry: the run selects entries by guid alone,
never consulting `mp3_url` (and nothing is logged about missing audio). -/
theorem C9_amended_no_url_still_dispatched
    (feeds : List Feed) (existing_feeds : List ExistingFeed) (e : PodcastEpisode)
    (h1 : e ∈ feeds.flatMap Feed.podcast_episodes)
    (h2 : e.guid ∉ get_existing_episode_guids existing_feeds) :
    e ∈ (main_run feeds existing_feeds).dispatched
    ∧ e.guid ∈ persisted_seen (main_run feeds existing_feeds) := by
  have hd : e ∈ identify_new_episodes feeds existing_feeds := by
    rw [identify_new_episodes_eq_filter]
    exact List.mem_filter.mpr ⟨h1, by simpa using h2⟩
  refine ⟨hd, ?_⟩
  rw [persisted_seen_main_run, List.mem_toFinset, List.mem_map]
  exact ⟨e, h1, rfl⟩

/-- Witness for the amended C9 at the concrete no-audio entry. -/
theorem C9_amended_witness :
    parse_entry rawNoUrl
        ∈ (main_run [parse_rss_feed ⟨some "F", [rawNoUrl]⟩] []).dispatched
    ∧ (parse_entry rawNoUrl).guid
        ∈ persisted_seen (main_run [parse_rss_feed ⟨some "F", [rawNoUrl]⟩] []) :=
  C9_amended_no_url_still_dispatched [parse_rss_feed ⟨some "F", [rawNoUrl]⟩] []
    (parse_entry rawNoUrl) (by decide) (by decide)

/-! ### Claim C2 -/

/-- C2: the storage location is a deterministic pure function of the guid
alone — for two records with equal guid (all other fields free to differ) the
GCS blob path and the local file path coincide, two successful `process`
calls wired to local storage return that same location, and the persisted
payload's `episode.guid` equals the common guid both times, in both
backends (the local path overwrites via `open(path, "w")`, the GCS blob via
`upload_from_string` on the same blob path). -/
theorem C2_location_pure_function_of_guid (e1 e2 : PodcastEpisode)
    (output_dir : String) (r1 r2 : TranscriptionResult) (h : e1.guid = e2.guid) :
    GCSStorage.blob_path e1 = GCSStorage.blob_path e2
    ∧ LocalStorage.path output_dir e1 = LocalStorage.path output_dir e2
    ∧ ((localStubProcessor output_dir).process e1).fst
        = .ok (LocalStorage.path output_dir e1)
    ∧ ((localStubProcessor output_dir).process e2).fst
        = .ok (LocalStorage.path output_dir e2)
    ∧ ((GCSStorage.upload_data e1 r1).get "episode").bind (·.get "guid")
        = some (.s e1.guid)
    ∧ ((GCSStorage.upload_data e2 r2).get "episode").bind (·.get "guid")
        = some (.s e1.guid)
    ∧ ((LocalStorage.upload_data e1 r1).get "episode").bind (·.get "guid")
        = some (.s e1.guid)
    ∧ ((LocalStorage.upload_data e2 r2).get "episode").bind (·.get "guid")
        = some (.s e1.guid) := by
  refine ⟨?_, ?_, rfl, rfl, rfl, ?_, rfl, ?_⟩
  · simp only [GCSStorage.blob_path, h]
  · simp only [LocalStorage.path, h]
  · rw [h]; exact rfl
  · rw [h]; exact rfl

/-- Witness for C2 at two concrete records sharing guid `"same"`. -/
theorem C2_witness :
    GCSStorage.blob_path epSame1 = GCSStorage.blob_path epSame2
    ∧ LocalStorage.path "output" epSame1 = LocalStorage.path "output" epSame2
    ∧ ((localStubProcessor "output").process epSame1).fst
        = .ok (LocalStorage.path "output" epSame1)
    ∧ ((localStubProcessor "output").process epSame2).fst
        = .ok (LocalStorage.path "output" epSame2)
    ∧ ((GCSStorage.upload_data epSame1 fakeResult).get "episode").bind (·.get "guid")
        = some (.s epSame1.guid)
    ∧ ((GCSStorage.upload_data epSame2 fakeResult).get "episode").bind (·.get "guid")
        = some (.s epSame1.guid)
    ∧ ((LocalStorage.upload_data epSame1 fakeResult).get "episode").bind (·.get "guid")
        = some (.s epSame1.guid)
    ∧ ((LocalStorage.upload_data epSame2 fakeResult).get "episode").bind (·.get "guid")
        = some (.s epSame1.guid) :=
  C2_location_pure_function_of_guid epSame1 epSame2 "output" fakeResult fakeResult rfl

/-! ### Claim C4 -/

/-- C4 counterexample: at a concrete episode (whose `description` is
nonempty) and transcription, the persisted `episode` sub-object of both
backends has exactly the keys `title`, `guid`, `pub_date`, `mp3_url` — the
`description` key is absent, so the sub-object does not contain all five
`PodcastEpisode` fields as claimed. -/
theorem C4_counterexample :
    epSame1.description ≠ ""
    ∧ ((GCSStorage.upload_data epSame1 fakeResult).get "episode").map JVal.keys
        = some ["title", "guid", "pub_date", "mp3_url"]
    ∧ ((GCSStorage.upload_data epSame1 fakeResult).get "episode").bind
        (·.get "description") = none
    ∧ ((LocalStorage.upload_data epSame1 fakeResult).get "episode").bind
        (·.get "description") = none := by
  exact ⟨by decide, rfl, rfl, rfl⟩

/-- C4 (amended): both backends persist the identical JSON object, whose
`episode` sub-object holds four of the five `PodcastEpisode` fields —
`title`, `guid`, `pub_date`, `mp3_url`, with `description` omitted — and
whose `transcription` sub-object holds `language`, `language_probability`,
`duration`, `full_text` and `segments`. -/
theorem C4_amended_payload_shape (episode : PodcastEpisode)
    (result : TranscriptionResult) :
    GCSStorage.upload_data episode result = LocalStorage.upload_data episode result
    ∧ (GCSStorage.upload_data episode result).keys = ["episode", "transcription"]
    ∧ ((GCSStorage.upload_data episode result).get "episode").map JVal.keys
        = some ["title", "guid", "pub_date", "mp3_url"]
    ∧ ((GCSStorage.upload_data episode result).get "transcription").map JVal.keys
        = some ["language", "language_probability", "duration", "full_text", "segments"]
    ∧ ((GCSStorage.upload_data episode result).get "episode").bind
        (·.get "description") = none :=
  ⟨rfl, rfl, rfl, rfl, rfl⟩

/-! ### Claim C6 -/

/-- C6: if the download stage fails, the downloader's error is what `process`
fails with and neither the transcriber nor the storage is invoked; if the
transcription stage fails, its error propagates and the storage is not
invoked (nothing is stored). -/
theorem C6_stage_isolation (ε : Type) (p : EpisodeProcessor ε)
    (episode : PodcastEpisode) :
    (∀ e, p.downloader episode.mp3_url = .error e →
      (p.process episode).fst = .error e
      ∧ countTranscribe (p.process episode).snd = 0
      ∧ countStore (p.process episode).snd = 0)
    ∧ (∀ audio e, p.downloader episode.mp3_url = .ok audio →
        p.transcriber audio = .error e →
      (p.process episode).fst = .error e
      ∧ countStore (p.process episode).snd = 0) := by
  constructor
  · intro e he
    simp [EpisodeProcessor.process, he, countTranscribe, countStore]
  · intro audio e hd ht
    simp [EpisodeProcessor.process, hd, ht, countStore]

/-- Witness for C6 at the concrete failing stage stand-ins. -/
theorem C6_witness :
    ((failingDownloadProcessor.process epSame1).fst = .error "HTTP 404"
      ∧ countTranscribe (failingDownloadProcessor.process epSame1).snd = 0
      ∧ countStore (failingDownloadProcessor.process epSame1).snd = 0)
    ∧ ((failingTranscribeProcessor.process epSame1).fst = .error "corrupt audio"
      ∧ countStore (failingTranscribeProcessor.process epSame1).snd = 0) :=
  ⟨(C6_stage_isolation String failingDownloadProcessor epSame1).1 "HTTP 404" rfl,
   (C6_stage_isolation String failingTranscribeProcessor epSame1).2 1024
     "corrupt audio" rfl rfl⟩

/-! ### Claim C7 -/

/-- C7: on every exit path — success, download failure, transcription failure
or storage failure — the scoped temporary directory has been removed by the
time `process` returns: folding the directory-on-disk state over the whole
event trace ends with the directory absent. -/
theorem C7_tmpdir_gone_after_process (ε : Type) (p : EpisodeProcessor ε)
    (episode : PodcastEpisode) :
    tmpdirLive (p.process episode).snd = false := by
  rcases hd : p.downloader episode.mp3_url with e | audio
  · simp only [EpisodeProcessor.process, hd]; rfl
  · rcases ht : p.transcriber audio with e | result
    · simp only [EpisodeProcessor.process, hd, ht]; rfl
    · rcases hs : p.storage episode result with e | path
      · simp only [EpisodeProcessor.process, hd, ht, hs]; rfl
      · simp only [EpisodeProcessor.process, hd, ht, hs]; rfl

/-! ### Claim C10 -/

/-- C10: the temporary directory is deleted before the store stage executes —
in every trace of `process`, at any `store` event the directory state folded
over the preceding events is already `false` (and the storage capability's
type shows it receives only the episode record and the in-memory
transcription result, never the audio path). -/
theorem C10_tmpdir_removed_before_store (ε : Type) (p : EpisodeProcessor ε)
    (episode : PodcastEpisode) (g : String) (l r : List Event)
    (h : (p.process episode).snd = l ++ Event.store g :: r) :
    tmpdirLive l = false := by
  have hc : cleanBeforeStore false (p.process episode).snd = true := by
    rcases hd : p.downloader episode.mp3_url with e | audio
    · simp only [EpisodeProcessor.process, hd]; rfl
    · rcases ht : p.transcriber audio with e | result
      · simp only [EpisodeProcessor.process, hd, ht]; rfl
      · rcases hs : p.storage episode result with e | path
        · simp only [EpisodeProcessor.process, hd, ht, hs]; rfl
        · simp only [EpisodeProcessor.process, hd, ht, hs]; rfl
  rw [h] at hc
  exact cleanBeforeStore_decomp g r l false hc

/-- Witness for C10 at the stub processor's successful trace. -/
theorem C10_witness :
    tmpdirLive [Event.mkTmpdir, Event.download epSame1.mp3_url,
      Event.transcribe mp3_filename, Event.rmTmpdir] = false :=
  C10_tmpdir_removed_before_store String (localStubProcessor "output") epSame1
    epSame1.guid
    [Event.mkTmpdir, Event.download epSame1.mp3_url,
     Event.transcribe mp3_filename, Event.rmTmpdir] [] rfl

/-! ### Claim C8 -/

/-- C8: a POST whose body is absent or undecodable is answered 400; when the
pipeline succeeds the answer is 200 and the body contains the storage
location; when the pipeline fails the answer is 500 carrying the error's
message; and the GET liveness route answers 200 unconditionally. -/
theorem C8_http_contract :
    (∀ proc, process_episode_route proc none = ⟨400, "No episode data provided"⟩)
    ∧ (∀ (proc : PodcastEpisode → Except String String) episode path,
        proc episode = .ok path →
        (process_episode_route proc (some episode)).status = 200
        ∧ ∃ s : String,
            (process_episode_route proc (some episode)).body = s ++ path)
    ∧ (∀ (proc : PodcastEpisode → Except String String) episode msg,
        proc episode = .error msg →
        process_episode_route proc (some episode) = ⟨500, "Error: " ++ msg⟩)
    ∧ health_route.status = 200 := by
  refine ⟨fun proc => rfl, ?_, ?_, rfl⟩
  · intro proc episode path hp
    have hred : process_episode_route proc (some episode)
        = match proc episode with
          | .ok p => ⟨200, "Processed: " ++ episode.title ++ " → " ++ p⟩
          | .error e => ⟨500, "Error: " ++ e⟩ := rfl
    rw [hred, hp]
    exact ⟨rfl, ("Processed: " ++ episode.title) ++ " → ", rfl⟩
  · intro proc episode msg hp
    have hred : process_episode_route proc (some episode)
        = match proc episode with
          | .ok p => ⟨200, "Processed: " ++ episode.title ++ " → " ++ p⟩
          | .error e => ⟨500, "Error: " ++ e⟩ := rfl
    rw [hred, hp]

/-- Witness for C8 at concrete succeeding and failing pipeline capabilities. -/
theorem C8_witness :
    process_episode_route okProc none = ⟨400, "No episode data provided"⟩
    ∧ (process_episode_route okProc (some epSame1)).status = 200
    ∧ (∃ s : String, (process_episode_route okProc (some epSame1)).body
        = s ++ GCSStorage.blob_path epSame1)
    ∧ process_episode_route errProc (some epSame1) = ⟨500, "Error: " ++ "boom"⟩
    ∧ health_route.status = 200 :=
  ⟨C8_http_contract.1 okProc,
   (C8_http_contract.2.1 okProc epSame1 (GCSStorage.blob_path epSame1) rfl).1,
   (C8_http_contract.2.1 okProc epSame1 (GCSStorage.blob_path epSame1) rfl).2,
   C8_http_contract.2.2.1 errProc epSame1 "boom" rfl,
   C8_http_contract.2.2.2⟩

end SverigeRadio
